import Mathlib

/-!
Verification of the Datalab collaborative notebook session engine.

This file gives a shallow embedding of the notebook document model, the
shell-channel kernel client and the local file-system storage of the
repository, and proves/refutes the frozen specification claims about them.

The shell-channel client (`ShellChannelClient` in the kernel sources) and the
local storage (`LocalFileSystemStorage`) are translated directly from their
TypeScript sources.  The notebook reducer (`NotebookSession.apply` and the
per-action rules) is present in the repository only through its test suite and
type declarations; the reducer definitions below are therefore modelled from
the specification text (section 4.1), each marked `Modelled from the spec:` in
its doc comment.
-/

set_option autoImplicit false

namespace Datalab

/-! ## Kernel message data model (from `messages.d.ts`) -/

/-- `RequestContext` from `messages.d.ts`: correlates an outbound kernel
request with its eventual reply, and an Update with the causing action. -/
structure RequestContext where
  requestId : String
  cellId : Option String := none
  worksheetId : Option String := none
  connectionId : Option String := none
deriving DecidableEq

/-- `app.ipy.Header` from `messages.d.ts`: the header (or parent header) of an
IPython protocol message; `msg_context` carries the round-tripped
`RequestContext`. -/
structure IpyHeader where
  msg_id : String
  msg_type : String
  msg_context : RequestContext
deriving DecidableEq

/-- The content fields of an IPython `execute_reply` message that
`ShellChannelClient._handleExecuteReply` reads (`status`, `execution_count`,
`ename`, `evalue`, `traceback`). -/
structure IpyReplyContent where
  status : String
  execution_count : String
  ename : String
  evalue : String
  traceback : List String
deriving DecidableEq

/-- `app.ipy.Message` from `messages.d.ts`: a parsed multipart IPython
protocol message. -/
structure IpyMessage where
  identities : List String := []
  header : IpyHeader
  parentHeader : IpyHeader
  metadata : List (String × String) := []
  content : IpyReplyContent
deriving DecidableEq

/-- `app.ExecuteReply` from `messages.d.ts`: the internal reply record; the
optional fields are `none` when the source leaves them unpopulated. -/
structure ExecuteReply where
  success : Bool
  requestContext : RequestContext
  executionCounter : Option String := none
  errorName : Option String := none
  errorMessage : Option String := none
  traceback : Option (List String) := none
deriving DecidableEq

/-! ## Shell channel client (from `ShellChannelClient`) -/

/-- `ShellChannelClient._handleExecuteReply`: translates an incoming IPython
message into an `ExecuteReply`.  `success` is `status == 'ok'`;
`requestContext` is taken from the reply's parent header `msg_context`;
`executionCounter` is populated from `execution_count` unless the status is
`'aborted'`; the error fields are populated exactly when the status is
`'error'`. -/
def handleExecuteReply (message : IpyMessage) : ExecuteReply :=
  let status := message.content.status
  { success := status == "ok"
    requestContext := message.parentHeader.msg_context
    executionCounter :=
      if status != "aborted" then some message.content.execution_count else none
    errorName :=
      if message.content.status == "error" then some message.content.ename else none
    errorMessage :=
      if message.content.status == "error" then some message.content.evalue else none
    traceback :=
      if message.content.status == "error" then some message.content.traceback else none }

/-- `ShellChannelClient._receive`: dispatch on the message type.  An
`execute_reply` is handed to `_handleExecuteReply` and delivered to the
delegate handler (`some`); any other message type is logged and ignored
(`none`). -/
def shellReceive (message : IpyMessage) : Option ExecuteReply :=
  if message.header.msg_type == "execute_reply" then
    some (handleExecuteReply message)
  else
    none

/-- Modelled from the spec: the reply-correlation mechanism section 4.2
describes for the shell channel — a pending-request table keyed by the
kernel's per-request message id, looked up by the incoming reply's parent
message id, with an unmatched reply logged and dropped.  The source
`ShellChannelClient` has no such table; this definition follows the spec's
words so that it can be compared against `shellReceive`. -/
def pendingTableReceive (pending : List (String × RequestContext))
    (message : IpyMessage) : Option ExecuteReply :=
  if message.header.msg_type == "execute_reply" then
    match pending.find? (fun p => p.1 == message.parentHeader.msg_id) with
    | some p => some { handleExecuteReply message with requestContext := p.2 }
    | none => none
  else
    none

/-- A concrete request context, as carried by the kernel messages below. -/
def ctx0 : RequestContext :=
  { requestId := "rq-1", cellId := some "cell-1", worksheetId := some "ws-1" }

/-- A concrete successful `execute_reply` message arriving on the shell
channel. -/
def replyMsg0 : IpyMessage :=
  { header := { msg_id := "k-reply-1", msg_type := "execute_reply", msg_context := ctx0 }
    parentHeader := { msg_id := "k-req-1", msg_type := "execute_request", msg_context := ctx0 }
    content := { status := "ok", execution_count := "1", ename := "", evalue := ""
                 traceback := [] } }

/-- A concrete `execute_reply` message with status `'error'`. -/
def errorReplyMsg : IpyMessage :=
  { header := { msg_id := "k-reply-2", msg_type := "execute_reply", msg_context := ctx0 }
    parentHeader := { msg_id := "k-req-2", msg_type := "execute_request", msg_context := ctx0 }
    content := { status := "error", execution_count := "7", ename := "NameError"
                 evalue := "name is not defined", traceback := ["tb-line-1", "tb-line-2"] } }

/-- A concrete `execute_reply` message with status `'aborted'`. -/
def abortedReplyMsg : IpyMessage :=
  { header := { msg_id := "k-reply-3", msg_type := "execute_reply", msg_context := ctx0 }
    parentHeader := { msg_id := "k-req-3", msg_type := "execute_request", msg_context := ctx0 }
    content := { status := "aborted", execution_count := "9", ename := "", evalue := ""
                 traceback := [] } }

/-- A concrete non-reply kernel message (a `status` broadcast). -/
def statusMsg : IpyMessage :=
  { header := { msg_id := "k-status-1", msg_type := "status", msg_context := ctx0 }
    parentHeader := { msg_id := "k-req-1", msg_type := "execute_request", msg_context := ctx0 }
    content := { status := "busy", execution_count := "", ename := "", evalue := ""
                 traceback := [] } }

/-! ## Notebook document model (data shapes from section 3 and the test
suite `notebook-actions-spec.ts`) -/

/-- A cell output: `{ type, mimetypeBundle }`. -/
structure CellOutput where
  type : String
  mimetypeBundle : List (String × String)
deriving DecidableEq

/-- A notebook cell: `{ id, type, source, metadata, outputs }`. -/
structure Cell where
  id : String
  type : String
  source : String
  metadata : List (String × String)
  outputs : List CellOutput
deriving DecidableEq

/-- A worksheet: `{ id, name, metadata, cells }` with significant cell
order. -/
structure Worksheet where
  id : String
  name : String
  metadata : List (String × String)
  cells : List Cell
deriving DecidableEq

/-- A notebook: `{ id, metadata, worksheets }`. -/
structure Notebook where
  id : String
  metadata : List (String × String)
  worksheets : List Worksheet
deriving DecidableEq

/-- Reducer failure: `NotFoundError` for a missing cell/worksheet id. -/
inductive NotebookError where
  | notFound (id : String)
deriving DecidableEq

/-- The `cell.update` action payload: optional `source`, `outputs`,
`metadata` deltas plus the `replaceOutputs` / `replaceMetadata` flags. -/
structure UpdateCellAction where
  worksheetId : String
  cellId : String
  source : Option String := none
  outputs : Option (List CellOutput) := none
  replaceOutputs : Bool := false
  metadata : Option (List (String × String)) := none
  replaceMetadata : Bool := false
deriving DecidableEq

/-- The `cell.update` Update: mirrors the action shape and carries only the
changed fields (the delta). -/
structure CellUpdate where
  worksheetId : String
  cellId : String
  source : Option String := none
  outputs : Option (List CellOutput) := none
  replaceOutputs : Bool := false
  metadata : Option (List (String × String)) := none
  replaceMetadata : Bool := false
deriving DecidableEq

/-- The composite Update emitted by `notebook.clearOutputs`: one sub-update
per cleared cell. -/
structure CompositeUpdate where
  subUpdates : List CellUpdate
deriving DecidableEq

/-- The `cell.clearOutput` action payload. -/
structure ClearOutputAction where
  worksheetId : String
  cellId : String
deriving DecidableEq

/-- The `worksheet.deleteCell` action payload. -/
structure DeleteCellAction where
  worksheetId : String
  cellId : String
deriving DecidableEq

/-- The `worksheet.deleteCell` Update. -/
structure DeleteCellUpdate where
  worksheetId : String
  cellId : String
deriving DecidableEq

/-- The `worksheet.moveCell` action payload. -/
structure MoveCellAction where
  sourceWorksheetId : String
  destinationWorksheetId : String
  cellId : String
  insertAfter : Option String := none
deriving DecidableEq

/-- The `worksheet.moveCell` Update. -/
structure MoveCellUpdate where
  sourceWorksheetId : String
  destinationWorksheetId : String
  cellId : String
  insertAfter : Option String := none
deriving DecidableEq

/-- The `worksheet.addCell` action payload. -/
structure AddCellAction where
  worksheetId : String
  cellId : String
  type : String := "code"
  source : String := ""
  insertAfter : Option String := none
deriving DecidableEq

/-- The `worksheet.addCell` Update: carries the newly constructed cell. -/
structure AddCellUpdate where
  worksheetId : String
  cell : Cell
  insertAfter : Option String := none
deriving DecidableEq

/-- Locate a worksheet by id (first match). -/
def findWorksheet? (nb : Notebook) (worksheetId : String) : Option Worksheet :=
  nb.worksheets.find? (fun ws => ws.id == worksheetId)

/-- Locate a cell by id within a worksheet (first match). -/
def findCell? (ws : Worksheet) (cellId : String) : Option Cell :=
  ws.cells.find? (fun c => c.id == cellId)

/-- Replace the first cell with the given id by `f` applied to it, leaving
all other cells untouched. -/
def updateFirstCell (cells : List Cell) (cellId : String) (f : Cell → Cell) :
    List Cell :=
  match cells with
  | [] => []
  | c :: rest =>
    if c.id == cellId then f c :: rest
    else c :: updateFirstCell rest cellId f

/-- Replace the cells of the worksheet with the given id. -/
def setWorksheetCells (nb : Notebook) (worksheetId : String)
    (newCells : List Cell) : Notebook :=
  { nb with
      worksheets := nb.worksheets.map (fun w =>
        if w.id == worksheetId then { w with cells := newCells } else w) }

/-- Modelled from the spec: the shallow key merge used by `cell.update` for
metadata (JavaScript object-assign semantics over a string-keyed map):
existing keys keep their position, taking the new value when the delta
overrides them, and keys new in the delta are appended in delta order. -/
def mergeMeta (k m : List (String × String)) : List (String × String) :=
  (k.map (fun p =>
    match m.find? (fun q => q.1 == p.1) with
    | some q => (p.1, q.2)
    | none => p)) ++
  m.filter (fun q => !(k.any (fun p => p.1 == q.1)))

/-- Modelled from the spec: the per-cell field merge of `cell.update`
(section 4.1) — `source` is a full replace when present; `outputs` append
unless `replaceOutputs` is set, in which case they become exactly the new
list; `metadata` shallow-key-merges unless `replaceMetadata` is set, in
which case it becomes exactly the new map. -/
def updateCellFields (a : UpdateCellAction) (cell : Cell) : Cell :=
  { cell with
      source := a.source.getD cell.source
      outputs :=
        match a.outputs with
        | none => cell.outputs
        | some os => if a.replaceOutputs then os else cell.outputs ++ os
      metadata :=
        match a.metadata with
        | none => cell.metadata
        | some m => if a.replaceMetadata then m else mergeMeta cell.metadata m }

/-- Modelled from the spec: the `cell.update` reducer rule (section 4.1),
whose implementation (`NotebookSession.apply`) is not among the provided
sources.  Locates the cell by `(worksheetId, cellId)` and fails with
`NotFoundError` if absent; merges fields by `updateCellFields`; the returned
Update carries exactly the action's delta fields, never the full resulting
maps. -/
def applyUpdateCell (nb : Notebook) (a : UpdateCellAction) :
    Except NotebookError (Notebook × CellUpdate) :=
  match findWorksheet? nb a.worksheetId with
  | none => .error (.notFound a.worksheetId)
  | some ws =>
    match findCell? ws a.cellId with
    | none => .error (.notFound a.cellId)
    | some _ =>
      .ok (setWorksheetCells nb a.worksheetId
             (updateFirstCell ws.cells a.cellId (updateCellFields a)),
           { worksheetId := a.worksheetId
             cellId := a.cellId
             source := a.source
             outputs := a.outputs
             replaceOutputs := a.replaceOutputs
             metadata := a.metadata
             replaceMetadata := a.replaceMetadata })

/-- Modelled from the spec: the `cell.clearOutput` reducer rule
(section 4.1) — clear the located cell's outputs and emit an Update with
`outputs = []` and `replaceOutputs = true`. -/
def applyClearOutput (nb : Notebook) (a : ClearOutputAction) :
    Except NotebookError (Notebook × CellUpdate) :=
  match findWorksheet? nb a.worksheetId with
  | none => .error (.notFound a.worksheetId)
  | some ws =>
    match findCell? ws a.cellId with
    | none => .error (.notFound a.cellId)
    | some _ =>
      .ok (setWorksheetCells nb a.worksheetId
             (updateFirstCell ws.cells a.cellId (fun c => { c with outputs := [] })),
           { worksheetId := a.worksheetId
             cellId := a.cellId
             outputs := some []
             replaceOutputs := true })

/-- Modelled from the spec: the `notebook.clearOutputs` reducer rule
(section 4.1) — for every worksheet, every cell, set `outputs = []`, and
emit a single composite Update with one sub-update per cleared cell. -/
def applyClearOutputs (nb : Notebook) : Notebook × CompositeUpdate :=
  ({ nb with
       worksheets := nb.worksheets.map (fun ws =>
         { ws with cells := ws.cells.map (fun c => { c with outputs := [] }) }) },
   { subUpdates :=
       (nb.worksheets.map (fun ws => ws.cells.map (fun c =>
         ({ worksheetId := ws.id
            cellId := c.id
            outputs := some []
            replaceOutputs := true } : CellUpdate)))).flatten })

/-- Modelled from the spec: removal of the cell with the given id from an
ordered cell sequence (used by `worksheet.deleteCell` and
`worksheet.moveCell`); yields the removed cell and the remainder in order,
or `NotFoundError` when the id is absent. -/
def removeCellById (cells : List Cell) (cellId : String) :
    Except NotebookError (Cell × List Cell) :=
  match cells with
  | [] => .error (.notFound cellId)
  | c :: rest =>
    if c.id == cellId then .ok (c, rest)
    else (removeCellById rest cellId).map (fun p => (p.1, c :: p.2))

/-- Modelled from the spec: insertion immediately after the cell with id
`insertAfter` (used by `worksheet.addCell` and `worksheet.moveCell`);
`NotFoundError` when no cell has that id. -/
def insertAfterId (cells : List Cell) (c : Cell) (insertAfter : String) :
    Except NotebookError (List Cell) :=
  match cells with
  | [] => .error (.notFound insertAfter)
  | x :: rest =>
    if x.id == insertAfter then .ok (x :: c :: rest)
    else (insertAfterId rest c insertAfter).map (fun rest' => x :: rest')

/-- Modelled from the spec: the shared insertion-position rule of
`worksheet.addCell` / `worksheet.moveCell` — insert immediately after the
cell identified by `insertAfter`, or at index 0 when it is null/absent. -/
def insertCell (cells : List Cell) (c : Cell) :
    Option String → Except NotebookError (List Cell)
  | none => .ok (c :: cells)
  | some aid => insertAfterId cells c aid

/-- Modelled from the spec: the `worksheet.deleteCell` reducer rule
(section 4.1). -/
def applyDeleteCell (nb : Notebook) (a : DeleteCellAction) :
    Except NotebookError (Notebook × DeleteCellUpdate) :=
  match findWorksheet? nb a.worksheetId with
  | none => .error (.notFound a.worksheetId)
  | some ws =>
    (removeCellById ws.cells a.cellId).map (fun p =>
      (setWorksheetCells nb a.worksheetId p.2,
       { worksheetId := a.worksheetId, cellId := a.cellId }))

/-- Modelled from the spec: the `worksheet.moveCell` reducer rule
(section 4.1) — remove the cell from its source worksheet, then reinsert it
into the destination worksheet by the shared insertion rule. -/
def applyMoveCell (nb : Notebook) (a : MoveCellAction) :
    Except NotebookError (Notebook × MoveCellUpdate) :=
  match findWorksheet? nb a.sourceWorksheetId with
  | none => .error (.notFound a.sourceWorksheetId)
  | some srcWs =>
    (removeCellById srcWs.cells a.cellId).bind (fun p =>
      let nb1 := setWorksheetCells nb a.sourceWorksheetId p.2
      match findWorksheet? nb1 a.destinationWorksheetId with
      | none => .error (.notFound a.destinationWorksheetId)
      | some dstWs =>
        (insertCell dstWs.cells p.1 a.insertAfter).map (fun dstCells =>
          (setWorksheetCells nb1 a.destinationWorksheetId dstCells,
           { sourceWorksheetId := a.sourceWorksheetId
             destinationWorksheetId := a.destinationWorksheetId
             cellId := a.cellId
             insertAfter := a.insertAfter })))

/-- Modelled from the spec: the `worksheet.addCell` reducer rule
(section 4.1) — construct a new cell with empty outputs/metadata and insert
it by the shared insertion rule; `NotFoundError` when `insertAfter` names a
nonexistent cell (the policy the spec fixes for the ambiguous source). -/
def applyAddCell (nb : Notebook) (a : AddCellAction) :
    Except NotebookError (Notebook × AddCellUpdate) :=
  match findWorksheet? nb a.worksheetId with
  | none => .error (.notFound a.worksheetId)
  | some ws =>
    let newCell : Cell :=
      { id := a.cellId, type := a.type, source := a.source, metadata := [], outputs := [] }
    (insertCell ws.cells newCell a.insertAfter).map (fun cells' =>
      (setWorksheetCells nb a.worksheetId cells',
       { worksheetId := a.worksheetId, cell := newCell, insertAfter := a.insertAfter }))

/-- Observation: the cell-id order of the worksheet with the given id. -/
def cellIdsOf (nb : Notebook) (worksheetId : String) : List String :=
  ((findWorksheet? nb worksheetId).map (fun ws => ws.cells.map Cell.id)).getD []

/-- Observation: the metadata of the located cell. -/
def cellMeta (nb : Notebook) (worksheetId cellId : String) :
    Option (List (String × String)) :=
  (findWorksheet? nb worksheetId).bind (fun ws =>
    (findCell? ws cellId).map Cell.metadata)

/-- Observation: the outputs of the located cell. -/
def cellOutputs (nb : Notebook) (worksheetId cellId : String) :
    Option (List CellOutput) :=
  (findWorksheet? nb worksheetId).bind (fun ws =>
    (findCell? ws cellId).map Cell.outputs)

/-! ## Local file-system storage (from `storage/local.ts`) -/

/-- Node `path.join` as used by `LocalFileSystemStorage`, restricted to the
plain-segment case (no normalization of `..`, absolute or dotted paths):
nonempty parts are joined with a single `/`. -/
def pathJoin (a b : String) : String :=
  if a = "" then (if b = "" then "." else b)
  else if b = "" then a
  else a ++ "/" ++ b

/-- `LocalFileSystemStorage._getAbsolutePath`: resolves a path against the
storage root via `path.join`. -/
def getAbsolutePath (storageRootPath p : String) : String :=
  pathJoin storageRootPath p

/-- The filesystem path touched by `LocalFileSystemStorage.read`: the
resolved absolute path. -/
def readTargetPath (storageRootPath p : String) : String :=
  getAbsolutePath storageRootPath p

/-- The filesystem path touched by `LocalFileSystemStorage.write`: the
resolved absolute path. -/
def writeTargetPath (storageRootPath p : String) : String :=
  getAbsolutePath storageRootPath p

/-- The filesystem path touched by `LocalFileSystemStorage.delete`: the
given path, passed to `fs.unlink` unmodified. -/
def deleteTargetPath (_storageRootPath p : String) : String :=
  p

/-! ## Concrete inputs used by the witnesses -/

/-- A concrete stdout output, as in the test suite. -/
def outStdout : CellOutput :=
  { type := "stdout", mimetypeBundle := [("text/plain", "some stdout here")] }

/-- Concrete cell `A` of the moveCell scenario. -/
def cellA : Cell :=
  { id := "A", type := "code", source := "some code", metadata := [], outputs := [] }

/-- Concrete cell `B` of the moveCell scenario. -/
def cellB : Cell :=
  { id := "B", type := "code", source := "some other code", metadata := [], outputs := [] }

/-- Concrete cell `C` of the moveCell scenario. -/
def cellC : Cell :=
  { id := "C", type := "code", source := "yet another code", metadata := [], outputs := [] }

/-- One-worksheet notebook with cells `[A, B, C]`. -/
def nbABC : Notebook :=
  { id := "nb-id", metadata := []
    worksheets := [{ id := "ws-id", name := "Untitled Worksheet", metadata := []
                     cells := [cellA, cellB, cellC] }] }

/-- `moveCell(cellId = C, insertAfter = null)`. -/
def moveCFront : MoveCellAction :=
  { sourceWorksheetId := "ws-id", destinationWorksheetId := "ws-id"
    cellId := "C", insertAfter := none }

/-- `moveCell(cellId = A, insertAfter = C)`. -/
def moveAAfterC : MoveCellAction :=
  { sourceWorksheetId := "ws-id", destinationWorksheetId := "ws-id"
    cellId := "A", insertAfter := some "C" }

/-- The cell updated in the `cell.update` metadata test: existing metadata
`{meta: 'data'}`. -/
def cellToUpdate : Cell :=
  { id := "cell-id-to-update", type := "code", source := "initial source"
    metadata := [("meta", "data")]
    outputs := [{ type := "stdout", mimetypeBundle := [("text/plain", "first output")] }] }

/-- One-worksheet notebook holding `cellToUpdate`. -/
def nbMeta : Notebook :=
  { id := "nb-id", metadata := []
    worksheets := [{ id := "ws-id", name := "Untitled Worksheet", metadata := []
                     cells := [cellToUpdate] }] }

/-- `cell.update` with metadata `{more: 'meta'}` and no `replaceMetadata`. -/
def updateMetaAction : UpdateCellAction :=
  { worksheetId := "ws-id", cellId := "cell-id-to-update"
    metadata := some [("more", "meta")] }

/-- The cell cleared in the `cell.clearOutput` test: one output. -/
def cellWithOutput : Cell :=
  { id := "cell-id-to-clear", type := "code", source := "", metadata := []
    outputs := [outStdout] }

/-- One-worksheet notebook holding `cellWithOutput`. -/
def nbClearOut : Notebook :=
  { id := "nb-id", metadata := []
    worksheets := [{ id := "ws-id", name := "Untitled Worksheet", metadata := []
                     cells := [cellWithOutput] }] }

/-- The `cell.clearOutput` action of the test. -/
def clearOutputAct : ClearOutputAction :=
  { worksheetId := "ws-id", cellId := "cell-id-to-clear" }

/-- Concrete cell `first` of the deleteCell scenario. -/
def cellFirst : Cell :=
  { id := "first", type := "code", source := "cell source content", metadata := [], outputs := [] }

/-- Concrete cell `middle` of the deleteCell scenario. -/
def cellMiddle : Cell :=
  { id := "middle", type := "code", source := "cell source content", metadata := [], outputs := [] }

/-- Concrete cell `last` of the deleteCell scenario. -/
def cellLast : Cell :=
  { id := "last", type := "code", source := "cell source content", metadata := [], outputs := [] }

/-- One-worksheet notebook with cells `[first, middle, last]`. -/
def nbFML : Notebook :=
  { id := "nb-id", metadata := []
    worksheets := [{ id := "ws-id", name := "Untitled Worksheet", metadata := []
                     cells := [cellFirst, cellMiddle, cellLast] }] }

/-- `worksheet.deleteCell` targeting the middle cell. -/
def deleteMiddle : DeleteCellAction :=
  { worksheetId := "ws-id", cellId := "middle" }

/-- `worksheet.deleteCell` targeting an absent cell id. -/
def deleteMissing : DeleteCellAction :=
  { worksheetId := "ws-id", cellId := "nonexistent-cell" }

/-- One-worksheet notebook with two cells `[A, B]` for the addCell test. -/
def nbAB : Notebook :=
  { id := "nb-id", metadata := []
    worksheets := [{ id := "ws-id", name := "Untitled Worksheet", metadata := []
                     cells := [cellA, cellB] }] }

/-- `worksheet.addCell` with a bad `insertAfter` id, as in the test. -/
def addCellBadInsert : AddCellAction :=
  { worksheetId := "ws-id", cellId := "NEW", type := "code"
    source := "some code here", insertAfter := some "does-not-exist" }

/-- Two-worksheet notebook, each worksheet holding two cells with two
outputs each, as in the `notebook.clearOutputs` test. -/
def nbTwoWs : Notebook :=
  { id := "nb-id", metadata := []
    worksheets :=
      [{ id := "ws-id", name := "Untitled Worksheet", metadata := []
         cells :=
           [{ id := "ws-id-cell-1", type := "code", source := "", metadata := []
              outputs := [outStdout, outStdout] },
            { id := "ws-id-cell-2", type := "code", source := "", metadata := []
              outputs := [outStdout, outStdout] }] },
       { id := "worksheet-2", name := "Worksheet2", metadata := []
         cells :=
           [{ id := "ws-id-cell-1", type := "code", source := "", metadata := []
              outputs := [outStdout, outStdout] },
            { id := "ws-id-cell-2", type := "code", source := "", metadata := []
              outputs := [outStdout, outStdout] }] }] }

/-- The first worksheet of `nbTwoWs` after `notebook.clearOutputs`. -/
def clearedWs1 : Worksheet :=
  { id := "ws-id", name := "Untitled Worksheet", metadata := []
    cells :=
      [{ id := "ws-id-cell-1", type := "code", source := "", metadata := [], outputs := [] },
       { id := "ws-id-cell-2", type := "code", source := "", metadata := [], outputs := [] }] }

/-- The first cell of `clearedWs1`. -/
def clearedCell1 : Cell :=
  { id := "ws-id-cell-1", type := "code", source := "", metadata := [], outputs := [] }

end Datalab

namespace Datalab

/-! ## Theorems about the shell channel client -/

/-- C2 (counterexample): the claimed pending-request-table discipline would
drop an `execute_reply` arriving at a client with no pending requests (the
empty table matches nothing), but the source `shellReceive` delivers it to the
handler anyway — the source keeps no pending table at all. -/
theorem shellReceive_delivers_unmatched_reply :
    pendingTableReceive [] replyMsg0 = none ∧ shellReceive replyMsg0 ≠ none := by
  refine ⟨rfl, ?_⟩
  intro h
  simp [shellReceive, replyMsg0] at h

/-- C2 (amended): the shell channel client keeps no pending-request table;
every incoming `execute_reply` is delivered to the delegate handler, with the
original `RequestContext` recovered from the reply's parent header
`msg_context` field (round-tripped through the kernel), regardless of any
outstanding-request state. -/
theorem shellReceive_correlates_by_parent_context (m : IpyMessage)
    (h : m.header.msg_type = "execute_reply") :
    shellReceive m = some (handleExecuteReply m) ∧
    (handleExecuteReply m).requestContext = m.parentHeader.msg_context := by
  refine ⟨?_, rfl⟩
  simp [shellReceive, h]

/-- Witness for C2's amended theorem at the concrete message `replyMsg0`. -/
theorem shellReceive_correlates_by_parent_context_witness :
    shellReceive replyMsg0 = some (handleExecuteReply replyMsg0) ∧
    (handleExecuteReply replyMsg0).requestContext = replyMsg0.parentHeader.msg_context :=
  shellReceive_correlates_by_parent_context replyMsg0 rfl

/-- C3: for every `execute_reply`, `success` is exactly `status == 'ok'`;
when the status is not `'aborted'` the `executionCounter` is populated from
`execution_count`; when the status is `'aborted'` it is left unpopulated; and
when the status is `'error'` the `errorName`, `errorMessage` and `traceback`
fields are populated from `ename`, `evalue` and `traceback`. -/
theorem handleExecuteReply_status_fields (m : IpyMessage) :
    (handleExecuteReply m).success = (m.content.status == "ok") ∧
    (m.content.status ≠ "aborted" →
      (handleExecuteReply m).executionCounter = some m.content.execution_count) ∧
    (m.content.status = "aborted" → (handleExecuteReply m).executionCounter = none) ∧
    (m.content.status = "error" →
      (handleExecuteReply m).errorName = some m.content.ename ∧
      (handleExecuteReply m).errorMessage = some m.content.evalue ∧
      (handleExecuteReply m).traceback = some m.content.traceback) := by
  refine ⟨rfl, ?_, ?_, ?_⟩
  · intro h
    simp [handleExecuteReply, h]
  · intro h
    simp [handleExecuteReply, h]
  · intro h
    simp [handleExecuteReply, h]

/-- Witness for C3 at the concrete error and aborted replies. -/
theorem handleExecuteReply_status_fields_witness :
    (handleExecuteReply errorReplyMsg).executionCounter = some "7" ∧
    (handleExecuteReply errorReplyMsg).errorName = some "NameError" ∧
    (handleExecuteReply abortedReplyMsg).executionCounter = none :=
  ⟨(handleExecuteReply_status_fields errorReplyMsg).2.1 (by decide),
   ((handleExecuteReply_status_fields errorReplyMsg).2.2.2 rfl).1,
   (handleExecuteReply_status_fields abortedReplyMsg).2.2.1 rfl⟩

/-- C9: shell channel dispatch — an `execute_reply` message is dispatched to
the ExecuteReply handler; a message of any other type is logged and ignored
(no handler is invoked, no error is raised). -/
theorem shellReceive_dispatch (m : IpyMessage) :
    (m.header.msg_type = "execute_reply" → shellReceive m = some (handleExecuteReply m)) ∧
    (m.header.msg_type ≠ "execute_reply" → shellReceive m = none) := by
  constructor
  · intro h
    simp [shellReceive, h]
  · intro h
    simp [shellReceive, h]

/-- Witness for C9 at a concrete reply and a concrete `status` broadcast. -/
theorem shellReceive_dispatch_witness :
    shellReceive errorReplyMsg = some (handleExecuteReply errorReplyMsg) ∧
    shellReceive statusMsg = none :=
  ⟨(shellReceive_dispatch errorReplyMsg).1 rfl,
   (shellReceive_dispatch statusMsg).2 (by decide)⟩

/-! ## Helper lemmas about the document-model primitives -/

/-- `updateFirstCell` commutes with lookup: finding the updated cell yields
the image under `f` of the originally found cell, provided `f` preserves
ids. -/
theorem find?_updateFirstCell (cells : List Cell) (cellId : String)
    (f : Cell → Cell) (hf : ∀ c, (f c).id = c.id) :
    (updateFirstCell cells cellId f).find? (fun c => c.id == cellId) =
      (cells.find? (fun c => c.id == cellId)).map f := by
  induction cells with
  | nil => rfl
  | cons c rest ih =>
    simp only [updateFirstCell]
    by_cases h : c.id = cellId
    · rw [if_pos (by simp [h])]
      rw [List.find?_cons_of_pos _ (by simp [hf, h]),
          List.find?_cons_of_pos _ (by simp [h])]
      rfl
    · rw [if_neg (by simp [h])]
      rw [List.find?_cons_of_neg _ (by simp [h]),
          List.find?_cons_of_neg _ (by simp [h])]
      exact ih

/-- Replacing the cells of the found worksheet is visible to a subsequent
lookup of that worksheet. -/
theorem find?_setCells (l : List Worksheet) (wsId : String)
    (newCells : List Cell) (ws : Worksheet)
    (h : l.find? (fun w => w.id == wsId) = some ws) :
    (l.map (fun w => if w.id == wsId then { w with cells := newCells } else w)).find?
        (fun w => w.id == wsId) = some { ws with cells := newCells } := by
  induction l with
  | nil => simp [List.find?] at h
  | cons w rest ih =>
    by_cases hw : w.id = wsId
    · rw [List.find?_cons_of_pos _ (by simp [hw])] at h
      injection h with h
      subst h
      simp only [List.map_cons]
      rw [if_pos (by simp [hw])]
      rw [List.find?_cons_of_pos _ (by simp [hw])]
    · rw [List.find?_cons_of_neg _ (by simp [hw])] at h
      simp only [List.map_cons]
      rw [if_neg (by simp [hw])]
      rw [List.find?_cons_of_neg _ (by simp [hw])]
      exact ih h

/-- Worksheet-level wrapper of `find?_setCells`. -/
theorem findWorksheet?_setWorksheetCells (nb : Notebook) (wsId : String)
    (newCells : List Cell) (ws : Worksheet)
    (h : findWorksheet? nb wsId = some ws) :
    findWorksheet? (setWorksheetCells nb wsId newCells) wsId =
      some { ws with cells := newCells } :=
  find?_setCells nb.worksheets wsId newCells ws h

/-- `removeCellById` removes exactly the first cell with the given id and
keeps the remainder in order. -/
theorem removeCellById_append (l₁ l₂ : List Cell) (c : Cell) (cid : String)
    (h₁ : ∀ x ∈ l₁, x.id ≠ cid) (hc : c.id = cid) :
    removeCellById (l₁ ++ c :: l₂) cid = .ok (c, l₁ ++ l₂) := by
  induction l₁ with
  | nil =>
    simp only [List.nil_append, removeCellById]
    rw [if_pos (by simp [hc])]
  | cons x rest ih =>
    simp only [List.cons_append, removeCellById]
    rw [if_neg (by simp [h₁ x (by simp)])]
    simp only [List.append_eq]
    rw [ih (fun y hy => h₁ y (by simp [hy]))]
    rfl

/-- `removeCellById` fails with `NotFoundError` when the id is absent. -/
theorem removeCellById_notFound (l : List Cell) (cid : String)
    (h : ∀ x ∈ l, x.id ≠ cid) :
    removeCellById l cid = .error (.notFound cid) := by
  induction l with
  | nil => rfl
  | cons x rest ih =>
    simp only [removeCellById]
    rw [if_neg (by simp [h x (by simp)])]
    rw [ih (fun y hy => h y (by simp [hy]))]
    rfl

/-- `insertAfterId` inserts immediately after the first cell with the given
id, keeping everything else in order. -/
theorem insertAfterId_append (l₁ l₂ : List Cell) (x c : Cell)
    (h₁ : ∀ y ∈ l₁, y.id ≠ x.id) :
    insertAfterId (l₁ ++ x :: l₂) c x.id = .ok (l₁ ++ x :: c :: l₂) := by
  induction l₁ with
  | nil =>
    simp only [List.nil_append, insertAfterId]
    rw [if_pos (by simp)]
  | cons y rest ih =>
    simp only [List.cons_append, insertAfterId]
    rw [if_neg (by simp [h₁ y (by simp)])]
    simp only [List.append_eq]
    rw [ih (fun z hz => h₁ z (by simp [hz]))]
    rfl

/-- `insertAfterId` fails with `NotFoundError` when no cell has the given
id. -/
theorem insertAfterId_notFound (l : List Cell) (c : Cell) (aid : String)
    (h : ∀ y ∈ l, y.id ≠ aid) :
    insertAfterId l c aid = .error (.notFound aid) := by
  induction l with
  | nil => rfl
  | cons y rest ih =>
    simp only [insertAfterId]
    rw [if_neg (by simp [h y (by simp)])]
    rw [ih (fun z hz => h z (by simp [hz]))]
    rfl

/-! ## Theorems about the document-model reducer -/

/-- C1: `cell.update` with a metadata payload `M` applied to an existing
cell with metadata `K` makes the cell's metadata the shallow key merge of
`K` and `M` when `replaceMetadata` is unset, and exactly `M` when it is set;
in both cases the returned Update carries exactly the delta `M` as its
metadata field, never the full resulting map. -/
theorem applyUpdateCell_metadata_merge (nb : Notebook) (a : UpdateCellAction)
    (ws : Worksheet) (cell : Cell) (M : List (String × String))
    (hws : findWorksheet? nb a.worksheetId = some ws)
    (hc : findCell? ws a.cellId = some cell)
    (hm : a.metadata = some M) :
    ∃ nb' u, applyUpdateCell nb a = .ok (nb', u) ∧
      u.metadata = some M ∧
      cellMeta nb' a.worksheetId a.cellId =
        some (if a.replaceMetadata then M else mergeMeta cell.metadata M) := by
  have hid : ∀ c : Cell, (updateCellFields a c).id = c.id := fun c => rfl
  have hc' : ws.cells.find? (fun c => c.id == a.cellId) = some cell := hc
  refine ⟨setWorksheetCells nb a.worksheetId
            (updateFirstCell ws.cells a.cellId (updateCellFields a)),
          { worksheetId := a.worksheetId, cellId := a.cellId, source := a.source
            outputs := a.outputs, replaceOutputs := a.replaceOutputs
            metadata := a.metadata, replaceMetadata := a.replaceMetadata },
          ?_, hm, ?_⟩
  · simp only [applyUpdateCell, hws, hc]
  · unfold cellMeta
    rw [findWorksheet?_setWorksheetCells nb a.worksheetId _ ws hws]
    simp only [Option.some_bind]
    unfold findCell?
    rw [show ({ ws with
          cells := updateFirstCell ws.cells a.cellId (updateCellFields a) } :
            Worksheet).cells =
        updateFirstCell ws.cells a.cellId (updateCellFields a) from rfl]
    rw [find?_updateFirstCell ws.cells a.cellId (updateCellFields a) hid, hc']
    simp only [Option.map_some']
    simp [updateCellFields, hm]

/-- Witness for C1 at the metadata-merge scenario of the test suite:
existing metadata `{meta: 'data'}`, delta `{more: 'meta'}`,
no `replaceMetadata`. -/
theorem applyUpdateCell_metadata_merge_witness :
    ∃ nb' u, applyUpdateCell nbMeta updateMetaAction = .ok (nb', u) ∧
      u.metadata = some [("more", "meta")] ∧
      cellMeta nb' "ws-id" "cell-id-to-update" =
        some [("meta", "data"), ("more", "meta")] :=
  applyUpdateCell_metadata_merge nbMeta updateMetaAction _ cellToUpdate
    [("more", "meta")] rfl rfl rfl

/-- C4: `notebook.clearOutputs` empties the outputs of every cell of every
worksheet, adds or removes no worksheet and no cell, and emits a single
composite Update with one sub-update (an empty-replace of outputs) per
cleared cell across all worksheets. -/
theorem applyClearOutputs_clears_all (nb : Notebook) :
    ((applyClearOutputs nb).1.worksheets.map Worksheet.id =
       nb.worksheets.map Worksheet.id) ∧
    ((applyClearOutputs nb).1.worksheets.map (fun ws => ws.cells.map Cell.id) =
       nb.worksheets.map (fun ws => ws.cells.map Cell.id)) ∧
    (∀ ws ∈ (applyClearOutputs nb).1.worksheets, ∀ c ∈ ws.cells, c.outputs = []) ∧
    ((applyClearOutputs nb).2.subUpdates.length =
       (nb.worksheets.map (fun ws => ws.cells.length)).sum) ∧
    (∀ u ∈ (applyClearOutputs nb).2.subUpdates,
       u.outputs = some [] ∧ u.replaceOutputs = true) := by
  refine ⟨?_, ?_, ?_, ?_, ?_⟩
  · simp [applyClearOutputs, List.map_map, Function.comp]
  · simp [applyClearOutputs, List.map_map, Function.comp]
  · intro ws hws c hc
    simp only [applyClearOutputs, List.mem_map] at hws
    obtain ⟨ws₀, _, rfl⟩ := hws
    simp only [List.mem_map] at hc
    obtain ⟨c₀, _, rfl⟩ := hc
    rfl
  · simp [applyClearOutputs, List.map_map, Function.comp_def]
  · intro u hu
    simp only [applyClearOutputs, List.mem_flatten, List.mem_map] at hu
    obtain ⟨l, ⟨ws₀, _, rfl⟩, hu⟩ := hu
    simp only [List.mem_map] at hu
    obtain ⟨c₀, _, rfl⟩ := hu
    exact ⟨rfl, rfl⟩

/-- Witness for C4 at the two-worksheet notebook of the test: four
sub-updates, and the first cleared cell has no outputs. -/
theorem applyClearOutputs_clears_all_witness :
    (applyClearOutputs nbTwoWs).2.subUpdates.length = 4 ∧
    clearedCell1.outputs = ([] : List CellOutput) :=
  ⟨((applyClearOutputs_clears_all nbTwoWs).2.2.2.1).trans (by rfl),
   (applyClearOutputs_clears_all nbTwoWs).2.2.1 clearedWs1 (by decide)
     clearedCell1 (by decide)⟩

/-- C5: `worksheet.moveCell` removes the identified cell from its source
position and reinserts it immediately after the `insertAfter` cell, or at
index 0 when `insertAfter` is null; on the worksheet `[A, B, C]`, moving `C`
to the front yields `[C, A, B]`, and then moving `A` after `C` leaves
`[C, A, B]` unchanged. -/
theorem applyMoveCell_spec :
    (∀ (l₁ l₂ : List Cell) (c : Cell) (cid : String),
       (∀ x ∈ l₁, x.id ≠ cid) → c.id = cid →
       removeCellById (l₁ ++ c :: l₂) cid = .ok (c, l₁ ++ l₂)) ∧
    (∀ (cells : List Cell) (c : Cell), insertCell cells c none = .ok (c :: cells)) ∧
    (∀ (l₁ l₂ : List Cell) (x c : Cell),
       (∀ y ∈ l₁, y.id ≠ x.id) →
       insertCell (l₁ ++ x :: l₂) c (some x.id) = .ok (l₁ ++ x :: c :: l₂)) ∧
    ((applyMoveCell nbABC moveCFront).toOption.map (fun p => cellIdsOf p.1 "ws-id") =
       some ["C", "A", "B"]) ∧
    ((applyMoveCell nbABC moveCFront).toOption.bind (fun p =>
        (applyMoveCell p.1 moveAAfterC).toOption.map (fun q => cellIdsOf q.1 "ws-id")) =
       some ["C", "A", "B"]) := by
  refine ⟨?_, ?_, ?_, ?_, ?_⟩
  · exact fun l₁ l₂ c cid h₁ hc => removeCellById_append l₁ l₂ c cid h₁ hc
  · intro cells c
    rfl
  · intro l₁ l₂ x c h₁
    exact insertAfterId_append l₁ l₂ x c h₁
  · rfl
  · rfl

/-- Witness for C5's general clauses at the cells of the scenario. -/
theorem applyMoveCell_spec_witness :
    removeCellById [cellA, cellB, cellC] "C" = .ok (cellC, [cellA, cellB]) ∧
    insertCell [cellA, cellB] cellC none = .ok [cellC, cellA, cellB] ∧
    insertCell [cellC, cellB] cellA (some "C") = .ok [cellC, cellA, cellB] :=
  ⟨applyMoveCell_spec.1 [cellA, cellB] [] cellC "C" (by decide) rfl,
   applyMoveCell_spec.2.1 [cellA, cellB] cellC,
   applyMoveCell_spec.2.2.1 [] [cellB] cellC cellA (by decide)⟩

/-- C6: `worksheet.deleteCell` with a present id removes exactly that cell
and preserves the relative order of the remaining cells; with an absent id
it fails with `NotFoundError`. -/
theorem applyDeleteCell_spec :
    (∀ (nb : Notebook) (a : DeleteCellAction) (ws : Worksheet)
       (l₁ l₂ : List Cell) (c : Cell),
       findWorksheet? nb a.worksheetId = some ws →
       ws.cells = l₁ ++ c :: l₂ →
       c.id = a.cellId →
       (∀ x ∈ l₁, x.id ≠ a.cellId) →
       applyDeleteCell nb a =
         .ok (setWorksheetCells nb a.worksheetId (l₁ ++ l₂),
              { worksheetId := a.worksheetId, cellId := a.cellId }) ∧
       cellIdsOf (setWorksheetCells nb a.worksheetId (l₁ ++ l₂)) a.worksheetId =
         (l₁ ++ l₂).map Cell.id) ∧
    (∀ (nb : Notebook) (a : DeleteCellAction) (ws : Worksheet),
       findWorksheet? nb a.worksheetId = some ws →
       (∀ x ∈ ws.cells, x.id ≠ a.cellId) →
       applyDeleteCell nb a = .error (.notFound a.cellId)) := by
  constructor
  · intro nb a ws l₁ l₂ c hws hcells hcid h₁
    have hrm : removeCellById ws.cells a.cellId = .ok (c, l₁ ++ l₂) := by
      rw [hcells]
      exact removeCellById_append l₁ l₂ c a.cellId h₁ hcid
    constructor
    · simp only [applyDeleteCell, hws, hrm]
      rfl
    · unfold cellIdsOf
      rw [findWorksheet?_setWorksheetCells nb a.worksheetId _ ws hws]
      rfl
  · intro nb a ws hws habs
    simp only [applyDeleteCell, hws, removeCellById_notFound ws.cells a.cellId habs]
    rfl

/-- Witness for C6 at the `[first, middle, last]` worksheet of the test:
deleting `middle` keeps `[first, last]`; deleting an absent id fails. -/
theorem applyDeleteCell_spec_witness :
    (applyDeleteCell nbFML deleteMiddle =
       .ok (setWorksheetCells nbFML "ws-id" [cellFirst, cellLast],
            { worksheetId := "ws-id", cellId := "middle" }) ∧
     cellIdsOf (setWorksheetCells nbFML "ws-id" [cellFirst, cellLast]) "ws-id" =
       ["first", "last"]) ∧
    applyDeleteCell nbFML deleteMissing = .error (.notFound "nonexistent-cell") :=
  ⟨applyDeleteCell_spec.1 nbFML deleteMiddle _ [cellFirst] [cellLast] cellMiddle
     rfl rfl rfl (by decide),
   applyDeleteCell_spec.2 nbFML deleteMissing _ rfl (by decide)⟩

/-- C7: `cell.clearOutput` is extensionally the same reducer as `cell.update`
with `outputs: []` and `replaceOutputs: true`; applied to a located cell with
more than zero outputs it leaves the cell with exactly zero outputs and emits
an Update with `outputs = []` and `replaceOutputs = true`. -/
theorem applyClearOutput_spec :
    (∀ (nb : Notebook) (a : ClearOutputAction),
       applyClearOutput nb a =
         applyUpdateCell nb
           { worksheetId := a.worksheetId, cellId := a.cellId
             outputs := some [], replaceOutputs := true }) ∧
    (∀ (nb : Notebook) (a : ClearOutputAction) (ws : Worksheet) (c : Cell),
       findWorksheet? nb a.worksheetId = some ws →
       findCell? ws a.cellId = some c →
       0 < c.outputs.length →
       ∃ nb' u, applyClearOutput nb a = .ok (nb', u) ∧
         u.outputs = some [] ∧ u.replaceOutputs = true ∧
         cellOutputs nb' a.worksheetId a.cellId = some []) := by
  constructor
  · intro nb a
    unfold applyClearOutput applyUpdateCell
    dsimp only
    cases findWorksheet? nb a.worksheetId with
    | none => rfl
    | some ws =>
      cases findCell? ws a.cellId with
      | none => rfl
      | some c => rfl
  · intro nb a ws c hws hc _
    have hid : ∀ x : Cell, ((fun y : Cell => { y with outputs := [] }) x).id = x.id :=
      fun _ => rfl
    have hc' : ws.cells.find? (fun x => x.id == a.cellId) = some c := hc
    refine ⟨setWorksheetCells nb a.worksheetId
              (updateFirstCell ws.cells a.cellId (fun y : Cell => { y with outputs := [] })),
            { worksheetId := a.worksheetId, cellId := a.cellId
              outputs := some [], replaceOutputs := true },
            ?_, rfl, rfl, ?_⟩
    · simp only [applyClearOutput, hws, hc]
    · unfold cellOutputs
      rw [findWorksheet?_setWorksheetCells nb a.worksheetId _ ws hws]
      simp only [Option.some_bind]
      unfold findCell?
      rw [show ({ ws with
            cells := updateFirstCell ws.cells a.cellId
              (fun y : Cell => { y with outputs := [] }) } : Worksheet).cells =
          updateFirstCell ws.cells a.cellId
            (fun y : Cell => { y with outputs := [] }) from rfl]
      rw [find?_updateFirstCell ws.cells a.cellId _ hid, hc']
      rfl

/-- Witness for C7 at the one-output cell of the test suite. -/
theorem applyClearOutput_spec_witness :
    applyClearOutput nbClearOut clearOutputAct =
      applyUpdateCell nbClearOut
        { worksheetId := "ws-id", cellId := "cell-id-to-clear"
          outputs := some [], replaceOutputs := true } ∧
    ∃ nb' u, applyClearOutput nbClearOut clearOutputAct = .ok (nb', u) ∧
      u.outputs = some [] ∧ u.replaceOutputs = true ∧
      cellOutputs nb' "ws-id" "cell-id-to-clear" = some [] :=
  ⟨applyClearOutput_spec.1 nbClearOut clearOutputAct,
   applyClearOutput_spec.2 nbClearOut clearOutputAct _ cellWithOutput rfl rfl
     (by decide)⟩

/-- C8: `worksheet.addCell` whose `insertAfter` id names no cell of the
worksheet fails with `NotFoundError`; no cell is inserted and the action is
not silently ignored. -/
theorem applyAddCell_badInsertAfter (nb : Notebook) (a : AddCellAction)
    (ws : Worksheet) (aid : String)
    (hws : findWorksheet? nb a.worksheetId = some ws)
    (hins : a.insertAfter = some aid)
    (habs : ∀ c ∈ ws.cells, c.id ≠ aid) :
    applyAddCell nb a = .error (.notFound aid) := by
  simp only [applyAddCell, hws, hins, insertCell]
  rw [insertAfterId_notFound ws.cells _ aid habs]
  rfl

/-- Witness for C8 at the `[A, B]` worksheet with `insertAfter` set to
`does-not-exist`, as in the test. -/
theorem applyAddCell_badInsertAfter_witness :
    applyAddCell nbAB addCellBadInsert = .error (.notFound "does-not-exist") :=
  applyAddCell_badInsertAfter nbAB addCellBadInsert _ "does-not-exist"
    rfl rfl (by decide)

/-! ## Theorems about the local storage -/

/-- C10: `LocalFileSystemStorage.read` and `write` resolve the path against
the storage root (`storageRootPath/p`), while `delete` passes the path to the
filesystem unmodified, so with a nonempty root `delete` addresses a different
path than `read`/`write`. -/
theorem localStorage_path_resolution (root p : String)
    (hroot : root ≠ "") (hp : p ≠ "") :
    readTargetPath root p = root ++ "/" ++ p ∧
    writeTargetPath root p = root ++ "/" ++ p ∧
    deleteTargetPath root p = p ∧
    deleteTargetPath root p ≠ readTargetPath root p := by
  have hjoin : pathJoin root p = root ++ "/" ++ p := by
    unfold pathJoin
    rw [if_neg hroot, if_neg hp]
  refine ⟨hjoin, hjoin, rfl, ?_⟩
  show p ≠ readTargetPath root p
  unfold readTargetPath getAbsolutePath
  rw [hjoin]
  intro h
  have hlen := congrArg String.length h
  have h1 : ("/" : String).length = 1 := rfl
  rw [String.length_append, String.length_append, h1] at hlen
  omega

/-- Witness for C10 at a concrete root and relative path. -/
theorem localStorage_path_resolution_witness :
    readTargetPath "/content/datalab" "notebook.ipynb" =
      "/content/datalab/notebook.ipynb" ∧
    writeTargetPath "/content/datalab" "notebook.ipynb" =
      "/content/datalab/notebook.ipynb" ∧
    deleteTargetPath "/content/datalab" "notebook.ipynb" = "notebook.ipynb" ∧
    deleteTargetPath "/content/datalab" "notebook.ipynb" ≠
      readTargetPath "/content/datalab" "notebook.ipynb" :=
  localStorage_path_resolution "/content/datalab" "notebook.ipynb"
    (by decide) (by decide)

end Datalab
